import Mathlib

/-!
Shallow embedding of `src/zlgcan/zlgcan_wrapper.cpp` (a Node-API wrapper
around the ZLG CAN/CAN-FD vendor driver), together with theorems settling
the specification claims about it.

Modelling conventions:
* The wrapper instance state (`deviceHandle_`, `pProperty_`) is the
  structure `DeviceState`; handles and pointers are `Nat`, with `0` the
  invalid sentinel (the source exports `INVALID_DEVICE_HANDLE` and
  `INVALID_CHANNEL_HANDLE` as BigInt `0`, and null pointers compare equal
  to them).
* Vendor driver calls (`ZCAN_*`) are external; each operation takes the
  driver's response for the single call it may make as an explicit
  argument (or a response function), and returns, besides its Node return
  value and updated state, the number of driver invocations it performed,
  so that "the driver is not touched" is a provable statement.
* Machine integers are `Nat` with explicit reductions: `Uint32Value`
  is `% UINT_MOD`, a `static_cast<BYTE>` is `% BYTE_MOD`.
* A Node method that throws the device-not-open error is modelled by the
  `NapiRet.notOpenError` constructor; a method returning `env.Null()`
  without an exception is modelled by `Option.none` in its payload.
-/

set_option linter.unusedVariables false

namespace ZlgCan

/-- Sentinel invalid device handle (exported by the module as BigInt 0). -/
def INVALID_DEVICE_HANDLE : Nat := 0

/-- Sentinel invalid channel handle (exported by the module as BigInt 0). -/
def INVALID_CHANNEL_HANDLE : Nat := 0

/-- Vendor driver success status (`STATUS_OK` of the vendor header; the
wrapper only ever compares driver statuses against it). -/
def STATUS_OK : Nat := 1

/-- Vendor discriminator for a classic CAN channel configuration. -/
def TYPE_CAN : Nat := 0

/-- Vendor discriminator for a CAN-FD channel configuration. -/
def TYPE_CANFD : Nat := 1

/-- Maximum payload length of a classic CAN frame. -/
def CAN_MAX_DLEN : Nat := 8

/-- Maximum payload length of a CAN-FD frame. -/
def CANFD_MAX_DLEN : Nat := 64

/-- Modulus of the C `UINT` type (`Napi::Number::Uint32Value`). -/
def UINT_MOD : Nat := 2 ^ 32

/-- Modulus of the C `BYTE` type. -/
def BYTE_MOD : Nat := 256

/-- The wrapper object's instance state: the stored device handle
`deviceHandle_` and the held IProperty pointer `pProperty_`
(`none` models the null pointer). -/
structure DeviceState where
  deviceHandle : Nat
  pProperty : Option Nat
deriving DecidableEq, Repr

/-- Return channel of a Node method that may throw the
device-not-open JavaScript exception before doing anything else. -/
inductive NapiRet (α : Type) where
  | notOpenError
  | result (a : α)
deriving DecidableEq, Repr

/-- Result record of `ZlgCanDevice::CloseDevice`: the returned Boolean,
and how many driver `ReleaseIProperty` / `ZCAN_CloseDevice` calls were
made. -/
structure CloseRet where
  retVal : Bool
  releaseCalls : Nat
  closeCalls : Nat
deriving DecidableEq, Repr

/-- `ZlgCanDevice::CloseDevice` (source lines 149-165): release the held
IProperty if any; if the device handle is already invalid return `false`
without calling the driver close; otherwise call `ZCAN_CloseDevice`
once, invalidate the handle, and return whether the driver reported
`STATUS_OK`. -/
def CloseDevice (st : DeviceState) (closeStatus : Nat) : CloseRet × DeviceState :=
  let relCalls : Nat := if st.pProperty.isSome then 1 else 0
  let st1 : DeviceState := { st with pProperty := none }
  if st1.deviceHandle = INVALID_DEVICE_HANDLE then
    ({ retVal := false, releaseCalls := relCalls, closeCalls := 0 }, st1)
  else
    ({ retVal := closeStatus = STATUS_OK, releaseCalls := relCalls, closeCalls := 1 },
     { st1 with deviceHandle := INVALID_DEVICE_HANDLE })

/-- The caller-facing channel configuration object: the `canType`
discriminator plus the optional numeric fields the wrapper looks up
with `config.Has(...)`; `none` models an absent property. -/
structure ChannelConfigIn where
  canType : Nat
  accCode : Option Nat := none
  accMask : Option Nat := none
  reserved : Option Nat := none
  filter : Option Nat := none
  timing0 : Option Nat := none
  timing1 : Option Nat := none
  mode : Option Nat := none
  abitTiming : Option Nat := none
  dbitTiming : Option Nat := none
  brp : Option Nat := none
  pad : Option Nat := none
deriving DecidableEq, Repr

/-- The classic (`can`) member of the driver's `ZCAN_CHANNEL_INIT_CONFIG`
union. -/
structure ZCAN_CHANNEL_CAN_INIT_CONFIG where
  acc_code : Nat
  acc_mask : Nat
  reserved : Nat
  filter : Nat
  timing0 : Nat
  timing1 : Nat
  mode : Nat
deriving DecidableEq, Repr

/-- The CAN-FD (`canfd`) member of the driver's
`ZCAN_CHANNEL_INIT_CONFIG` union. -/
structure ZCAN_CHANNEL_CANFD_INIT_CONFIG where
  acc_code : Nat
  acc_mask : Nat
  abit_timing : Nat
  dbit_timing : Nat
  brp : Nat
  filter : Nat
  mode : Nat
  pad : Nat
  reserved : Nat
deriving DecidableEq, Repr

/-- The populated member of the driver config union (the source writes
exactly one member after zeroing the struct, selected by `can_type`). -/
inductive ZcanInitPayload where
  | can (c : ZCAN_CHANNEL_CAN_INIT_CONFIG)
  | canfd (c : ZCAN_CHANNEL_CANFD_INIT_CONFIG)
deriving DecidableEq, Repr

/-- The driver's `ZCAN_CHANNEL_INIT_CONFIG` as the wrapper fills it. -/
structure ZCAN_CHANNEL_INIT_CONFIG where
  can_type : Nat
  payload : ZcanInitPayload
deriving DecidableEq, Repr

/-- A field read as `config.Has(f) ? config.Get(f).Uint32Value() : dflt`. -/
def uintField (v : Option Nat) (dflt : Nat) : Nat :=
  match v with
  | some x => x % UINT_MOD
  | none => dflt

/-- A field read as
`config.Has(f) ? static_cast<BYTE>(config.Get(f).Uint32Value()) : dflt`. -/
def byteField (v : Option Nat) (dflt : Nat) : Nat :=
  match v with
  | some x => x % UINT_MOD % BYTE_MOD
  | none => dflt

/-- The `TYPE_CAN` branch of `ZlgCanDevice::InitCanChannel`
(source lines 285-300): populate `initConfig.can` with the caller's
fields, defaulting `acc_mask` to `0xFFFFFFFF`, `timing1` to `0x1C`, and
everything else to `0`. -/
def buildClassicConfig (cfg : ChannelConfigIn) : ZCAN_CHANNEL_CAN_INIT_CONFIG :=
  { acc_code := uintField cfg.accCode 0
    acc_mask := uintField cfg.accMask 0xFFFFFFFF
    reserved := uintField cfg.reserved 0
    filter := byteField cfg.filter 0
    timing0 := byteField cfg.timing0 0
    timing1 := byteField cfg.timing1 0x1C
    mode := byteField cfg.mode 0 }

/-- The CAN-FD branch of `ZlgCanDevice::InitCanChannel`
(source lines 301-321): populate `initConfig.canfd`, defaulting
`acc_mask` to `0xFFFFFFFF` and everything else to `0`.  `pad` is read
through a `static_cast<USHORT>`; the reduction `% 65536` models it. -/
def buildFDConfig (cfg : ChannelConfigIn) : ZCAN_CHANNEL_CANFD_INIT_CONFIG :=
  { acc_code := uintField cfg.accCode 0
    acc_mask := uintField cfg.accMask 0xFFFFFFFF
    abit_timing := uintField cfg.abitTiming 0
    dbit_timing := uintField cfg.dbitTiming 0
    brp := uintField cfg.brp 0
    filter := byteField cfg.filter 0
    mode := byteField cfg.mode 0
    pad := (match cfg.pad with
            | some x => x % UINT_MOD % 65536
            | none => 0)
    reserved := uintField cfg.reserved 0 }

/-- The config-marshalling part of `ZlgCanDevice::InitCanChannel`
(source lines 280-321): zero the union, set `can_type`, and fill the
member selected by `can_type == TYPE_CAN`. -/
def buildInitConfig (cfg : ChannelConfigIn) : ZCAN_CHANNEL_INIT_CONFIG :=
  let ct := cfg.canType % UINT_MOD
  { can_type := ct
    payload := if ct = TYPE_CAN then .can (buildClassicConfig cfg)
               else .canfd (buildFDConfig cfg) }

/-- `ZlgCanDevice::InitCanChannel` (source lines 264-327): throw the
device-not-open error if the device handle is invalid (no driver call);
otherwise marshal the config, call `ZCAN_InitCAN` once, and return
whatever channel handle the driver produced as a BigInt — the sentinel
included, unchecked.  `driverInit` is the driver's response to the one
`ZCAN_InitCAN` call; the second component counts driver invocations. -/
def InitCanChannel (st : DeviceState) (channelIndex : Nat) (cfg : ChannelConfigIn)
    (driverInit : Nat → ZCAN_CHANNEL_INIT_CONFIG → Nat) : NapiRet Nat × Nat :=
  if st.deviceHandle = INVALID_DEVICE_HANDLE then (.notOpenError, 0)
  else (.result (driverInit (channelIndex % UINT_MOD) (buildInitConfig cfg)), 1)

/-- `ZlgCanDevice::StartCanChannel` (source lines 329-342): no device
state check — call `ZCAN_StartCAN` on the given channel handle and map
the driver status to a Boolean.  `driverStatus` is the driver's reply;
the second component counts driver invocations (always 1). -/
def StartCanChannel (st : DeviceState) (channelHandle : Nat)
    (driverStatus : Nat) : Bool × Nat :=
  (decide (driverStatus = STATUS_OK), 1)

/-- `ZlgCanDevice::ResetCanChannel` (source lines 344-357): same shape
as `StartCanChannel`, delegating to `ZCAN_ResetCAN`. -/
def ResetCanChannel (st : DeviceState) (channelHandle : Nat)
    (driverStatus : Nat) : Bool × Nat :=
  (decide (driverStatus = STATUS_OK), 1)

/-- `ZlgCanDevice::ClearBuffer` (source lines 359-372): same shape as
`StartCanChannel`, delegating to `ZCAN_ClearBuffer`. -/
def ClearBuffer (st : DeviceState) (channelHandle : Nat)
    (driverStatus : Nat) : Bool × Nat :=
  (decide (driverStatus = STATUS_OK), 1)

/-- The driver's `ZCAN_CHANNEL_ERR_INFO` struct. -/
structure ZCAN_CHANNEL_ERR_INFO where
  error_code : Nat
  passive_ErrData : List Nat
  arLost_ErrData : Nat
deriving DecidableEq, Repr

/-- The JavaScript object `readChannelErrInfo` builds on success. -/
structure ErrInfoObj where
  errorCode : Nat
  passiveErrData : List Nat
  arLostErrData : Nat
deriving DecidableEq, Repr

/-- `ZlgCanDevice::ReadChannelErrInfo` (source lines 374-404): no device
state check — call `ZCAN_ReadChannelErrInfo` once; on a non-OK driver
status return `null` (modelled `none`), otherwise marshal the struct
(the `passive_ErrData` loop copies indices 0..2). -/
def ReadChannelErrInfo (st : DeviceState) (channelHandle : Nat)
    (driverStatus : Nat) (e : ZCAN_CHANNEL_ERR_INFO) : Option ErrInfoObj × Nat :=
  if driverStatus = STATUS_OK then
    (some { errorCode := e.error_code
            passiveErrData := (List.range 3).map (fun i => e.passive_ErrData.getD i 0)
            arLostErrData := e.arLost_ErrData }, 1)
  else (none, 1)

/-- The driver's `ZCAN_CHANNEL_STATUS` struct. -/
structure ZCAN_CHANNEL_STATUS where
  errInterrupt : Nat
  regMode : Nat
  regStatus : Nat
  regALCapture : Nat
  regECCapture : Nat
  regEWLimit : Nat
  regRECounter : Nat
  regTECounter : Nat
deriving DecidableEq, Repr

/-- The JavaScript object `readChannelStatus` builds on success
(field-for-field copy of the driver struct). -/
structure ChannelStatusObj where
  errInterrupt : Nat
  regMode : Nat
  regStatus : Nat
  regALCapture : Nat
  regECCapture : Nat
  regEWLimit : Nat
  regRECounter : Nat
  regTECounter : Nat
deriving DecidableEq, Repr

/-- `ZlgCanDevice::ReadChannelStatus` (source lines 406-436): no device
state check — call `ZCAN_ReadChannelStatus` once; `null` on non-OK,
otherwise the marshalled register snapshot. -/
def ReadChannelStatus (st : DeviceState) (channelHandle : Nat)
    (driverStatus : Nat) (s : ZCAN_CHANNEL_STATUS) : Option ChannelStatusObj × Nat :=
  if driverStatus = STATUS_OK then
    (some { errInterrupt := s.errInterrupt, regMode := s.regMode
            regStatus := s.regStatus, regALCapture := s.regALCapture
            regECCapture := s.regECCapture, regEWLimit := s.regEWLimit
            regRECounter := s.regRECounter, regTECounter := s.regTECounter }, 1)
  else (none, 1)

/-- `ZlgCanDevice::GetReceiveNum` (source lines 438-454): no device
state check — default the frame-type argument to `TYPE_CAN`, cast it to
`BYTE`, call `ZCAN_GetReceiveNum` once and return the driver's count
as a plain JavaScript number.  `drv` maps the byte type argument to the
count the driver reports; there is no status channel at this driver
boundary, so no failure is representable in the return value. -/
def GetReceiveNum (st : DeviceState) (channelHandle : Nat)
    (frameType : Option Nat) (drv : Nat → Nat) : Nat × Nat :=
  (drv (byteField frameType TYPE_CAN), 1)

/-- The driver's `ZCAN_DEVICE_INFO` struct. -/
structure ZCAN_DEVICE_INFO where
  hw_Version : Nat
  fw_Version : Nat
  dr_Version : Nat
  in_Version : Nat
  irq_Num : Nat
  can_Num : Nat
  str_Serial_Num : String
  str_hw_Type : String
deriving DecidableEq, Repr

/-- The JavaScript object `getDeviceInfo` builds on success. -/
structure DeviceInfoObj where
  hardwareVersion : Nat
  firmwareVersion : Nat
  driverVersion : Nat
  libraryVersion : Nat
  irqNumber : Nat
  canNumber : Nat
  serialNumber : String
  hardwareType : String
deriving DecidableEq, Repr

/-- `ZlgCanDevice::GetDeviceInfo` (source lines 167-194): throw the
device-not-open error on a closed device (no driver call); otherwise
call `ZCAN_GetDeviceInf` once, returning `null` on a non-OK status and
the marshalled info object on success. -/
def GetDeviceInfo (st : DeviceState) (driverStatus : Nat)
    (di : ZCAN_DEVICE_INFO) : NapiRet (Option DeviceInfoObj) × Nat :=
  if st.deviceHandle = INVALID_DEVICE_HANDLE then (.notOpenError, 0)
  else if driverStatus = STATUS_OK then
    (.result (some { hardwareVersion := di.hw_Version
                     firmwareVersion := di.fw_Version
                     driverVersion := di.dr_Version
                     libraryVersion := di.in_Version
                     irqNumber := di.irq_Num
                     canNumber := di.can_Num
                     serialNumber := di.str_Serial_Num
                     hardwareType := di.str_hw_Type }), 1)
  else (.result none, 1)

/-- `ZlgCanDevice::SetValue` (source lines 796-814): throw the
device-not-open error on a closed device (no driver call); otherwise
call `ZCAN_SetValue` once and return the raw driver status number. -/
def SetValue (st : DeviceState) (path value : String)
    (driverStatus : Nat) : NapiRet Nat × Nat :=
  if st.deviceHandle = INVALID_DEVICE_HANDLE then (.notOpenError, 0)
  else (.result driverStatus, 1)

/-- `ZlgCanDevice::GetValue` (source lines 816-837): throw the
device-not-open error on a closed device (no driver call); otherwise
call `ZCAN_GetValue` once, returning `null` for a null driver pointer
and the string otherwise. -/
def GetValue (st : DeviceState) (path : String)
    (driverRet : Option String) : NapiRet (Option String) × Nat :=
  if st.deviceHandle = INVALID_DEVICE_HANDLE then (.notOpenError, 0)
  else (.result driverRet, 1)

/-- One driver call on the IProperty interface, in program order. -/
inductive PropCall where
  | release
  | acquire
deriving DecidableEq, Repr

/-- `ZlgCanDevice::GetIProperty` (source lines 841-855): throw the
device-not-open error on a closed device (no driver call); otherwise
release the previously held IProperty (if any) first, then acquire a
new one from the driver and store it (null included), returning whether
the stored pointer is non-null.  The trace lists the driver IProperty
calls in order. -/
def GetIProperty (st : DeviceState) (driverProp : Option Nat) :
    NapiRet Bool × DeviceState × List PropCall :=
  if st.deviceHandle = INVALID_DEVICE_HANDLE then (.notOpenError, st, [])
  else
    ((.result driverProp.isSome), { st with pProperty := driverProp },
     (if st.pProperty.isSome then [PropCall.release] else []) ++ [PropCall.acquire])

/-- `ZlgCanDevice::ReleaseIProperty` (source lines 900-911): when no
IProperty is held return `false` without calling the driver; otherwise
release it once, null the stored pointer, and map the driver status to
a Boolean. -/
def ReleaseIProperty (st : DeviceState) (driverStatus : Nat) :
    Bool × DeviceState × List PropCall :=
  match st.pProperty with
  | none => (false, st, [])
  | some _ => (decide (driverStatus = STATUS_OK), { st with pProperty := none },
               [PropCall.release])

/-- `ZlgCanDevice::~ZlgCanDevice` (source lines 119-128): release the
held IProperty if any and null the pointer; close the device if the
handle is valid and invalidate it.  Returns the final state, the
IProperty call trace, and the number of `ZCAN_CloseDevice` calls. -/
def destructor (st : DeviceState) : DeviceState × List PropCall × Nat :=
  (⟨INVALID_DEVICE_HANDLE, none⟩,
   (if st.pProperty.isSome then [PropCall.release] else []),
   (if st.deviceHandle = INVALID_DEVICE_HANDLE then 0 else 1))

/-- A caller-facing classic transmit frame: required `id` and `dlc`
properties, optional `transmitType` and `data`. -/
structure TxFrameIn where
  id : Nat
  dlc : Nat
  transmitType : Option Nat := none
  data : Option (List Nat) := none
deriving DecidableEq, Repr

/-- The driver's classic `can_frame` (fixed 8-byte data buffer). -/
structure CanFrame where
  can_id : Nat
  can_dlc : Nat
  data : List Nat
deriving DecidableEq, Repr

/-- The driver's `ZCAN_Transmit_Data` struct. -/
structure ZCAN_Transmit_Data where
  frame : CanFrame
  transmit_type : Nat
deriving DecidableEq, Repr

/-- The data-copy loop of the transmit marshalling: the frame struct was
zeroed by `memset`, then `data[j] = BYTE(dataArr[j])` for every
`j < dataArr.Length() && j < maxLen`.  The result is the full
`maxLen`-byte buffer handed to the driver. -/
def fillData (maxLen : Nat) (d : List Nat) : List Nat :=
  (List.range maxLen).map (fun j => d.getD j 0 % UINT_MOD % BYTE_MOD)

/-- Per-frame marshalling of `ZlgCanDevice::Transmit` (source lines
477-488, identically 494-505 for the single-frame branch): zero the
struct, copy `id`, `dlc` (as `BYTE`), `transmitType` (default 0), and
at most `CAN_MAX_DLEN` caller data bytes. -/
def marshalTxFrame (f : TxFrameIn) : ZCAN_Transmit_Data :=
  { frame := { can_id := f.id % UINT_MOD
               can_dlc := f.dlc % UINT_MOD % BYTE_MOD
               data := fillData CAN_MAX_DLEN (f.data.getD []) }
    transmit_type := uintField f.transmitType 0 }

/-- Result of a transmit call: the count returned to JavaScript and the
driver transmit invocations that were issued, each with its frame
batch. -/
structure TransmitRet where
  sent : Nat
  batches : List (List ZCAN_Transmit_Data)
deriving DecidableEq, Repr

/-- `ZlgCanDevice::Transmit` (source lines 458-510): no device state
check — marshal the caller's frame or frame array (a single frame is
the one-element batch) and issue exactly one `ZCAN_Transmit` call with
the whole batch, returning the driver's accepted count unchanged.
`drv` is the driver's reply to the batch. -/
def Transmit (st : DeviceState) (channelHandle : Nat)
    (framesIn : List TxFrameIn) (drv : List ZCAN_Transmit_Data → Nat) : TransmitRet :=
  let buf := framesIn.map marshalTxFrame
  { sent := drv buf, batches := [buf] }

/-- A caller-facing CAN-FD transmit frame. -/
structure TxFDFrameIn where
  id : Nat
  len : Nat
  flags : Option Nat := none
  transmitType : Option Nat := none
  data : Option (List Nat) := none
deriving DecidableEq, Repr

/-- The driver's `canfd_frame` (fixed 64-byte data buffer). -/
structure CanFDFrame where
  can_id : Nat
  len : Nat
  flags : Nat
  data : List Nat
deriving DecidableEq, Repr

/-- The driver's `ZCAN_TransmitFD_Data` struct. -/
structure ZCAN_TransmitFD_Data where
  frame : CanFDFrame
  transmit_type : Nat
deriving DecidableEq, Repr

/-- Per-frame marshalling of `ZlgCanDevice::TransmitFD` (source lines
567-580, identically 586-599): zero the struct, copy `id`, `len` (as
`BYTE`), `flags` (default 0), `transmitType` (default 0), and at most
`CANFD_MAX_DLEN` caller data bytes. -/
def marshalTxFrameFD (f : TxFDFrameIn) : ZCAN_TransmitFD_Data :=
  { frame := { can_id := f.id % UINT_MOD
               len := f.len % UINT_MOD % BYTE_MOD
               flags := byteField f.flags 0
               data := fillData CANFD_MAX_DLEN (f.data.getD []) }
    transmit_type := uintField f.transmitType 0 }

/-- Result of an FD transmit call, mirroring `TransmitRet`. -/
structure TransmitFDRet where
  sent : Nat
  batches : List (List ZCAN_TransmitFD_Data)
deriving DecidableEq, Repr

/-- `ZlgCanDevice::TransmitFD` (source lines 548-604): no device state
check — marshal the batch and issue exactly one `ZCAN_TransmitFD` call,
returning the driver's accepted count unchanged. -/
def TransmitFD (st : DeviceState) (channelHandle : Nat)
    (framesIn : List TxFDFrameIn) (drv : List ZCAN_TransmitFD_Data → Nat) : TransmitFDRet :=
  let buf := framesIn.map marshalTxFrameFD
  { sent := drv buf, batches := [buf] }

/-- The driver's `ZCAN_Receive_Data` struct. -/
structure ZCAN_Receive_Data where
  frame : CanFrame
  timestamp : Nat
deriving DecidableEq, Repr

/-- The JavaScript frame object `receive` builds for each received
driver frame. -/
structure RxFrameOut where
  id : Nat
  dlc : Nat
  timestamp : Nat
  data : List Nat
deriving DecidableEq, Repr

/-- The per-frame conversion loop of `ZlgCanDevice::Receive` (source
lines 530-543): copy `id`, `dlc`, `timestamp`, and build a data array
of length exactly `can_dlc` holding `data[0..can_dlc)`. -/
def convertRxFrame (r : ZCAN_Receive_Data) : RxFrameOut :=
  { id := r.frame.can_id
    dlc := r.frame.can_dlc
    timestamp := r.timestamp
    data := (List.range r.frame.can_dlc).map (fun j => r.frame.data.getD j 0) }

/-- `ZlgCanDevice::Receive` (source lines 512-546): no device state
check — default `waitTime` to `-1`, call `ZCAN_Receive` once and
convert exactly the frames the driver reported.  `drv` maps the count
and wait time to the driver's returned frames; the second component
counts driver invocations. -/
def Receive (st : DeviceState) (channelHandle count : Nat) (waitTime : Option Int)
    (drv : Nat → Int → List ZCAN_Receive_Data) : List RxFrameOut × Nat :=
  ((drv (count % UINT_MOD) (waitTime.getD (-1))).map convertRxFrame, 1)

/-- The driver's `ZCAN_ReceiveFD_Data` struct. -/
structure ZCAN_ReceiveFD_Data where
  frame : CanFDFrame
  timestamp : Nat
deriving DecidableEq, Repr

/-- The JavaScript frame object `receiveFD` builds for each received
driver frame. -/
structure RxFDFrameOut where
  id : Nat
  len : Nat
  flags : Nat
  timestamp : Nat
  data : List Nat
deriving DecidableEq, Repr

/-- The per-frame conversion loop of `ZlgCanDevice::ReceiveFD` (source
lines 624-638): copy `id`, `len`, `flags`, `timestamp`, and build a
data array of length exactly `len` holding `data[0..len)`. -/
def convertRxFrameFD (r : ZCAN_ReceiveFD_Data) : RxFDFrameOut :=
  { id := r.frame.can_id
    len := r.frame.len
    flags := r.frame.flags
    timestamp := r.timestamp
    data := (List.range r.frame.len).map (fun j => r.frame.data.getD j 0) }

/-- `ZlgCanDevice::ReceiveFD` (source lines 606-641): no device state
check — default `waitTime` to `-1`, call `ZCAN_ReceiveFD` once and
convert exactly the frames the driver reported. -/
def ReceiveFD (st : DeviceState) (channelHandle count : Nat) (waitTime : Option Int)
    (drv : Nat → Int → List ZCAN_ReceiveFD_Data) : List RxFDFrameOut × Nat :=
  ((drv (count % UINT_MOD) (waitTime.getD (-1))).map convertRxFrameFD, 1)

/-- Modelled from the spec: the repository's subscription subsystem
(HandleRegistry, PollWorker, DeliverySink of spec §2, §4.5, §4.6) is not
among the files under `src/`; this entry models a registry entry
(ChannelSubscription, spec §3): the consumer callback it delivers to,
its atomic stop flag, and whether its worker thread has been joined. -/
structure SubEntry where
  cb : Nat
  stopFlag : Bool
  joined : Bool
deriving DecidableEq, Repr

/-- Modelled from the spec: the HandleRegistry (spec §2, §3) — the map
from channel handles to their live subscription entries, missing from
`src/`. -/
structure SubRegistry where
  entries : List (Nat × SubEntry)
deriving DecidableEq, Repr

/-- Modelled from the spec: subscription teardown (spec §4.6), missing
from `src/` — set the stop flag, join the worker thread to completion,
then deregister; returns the registry without the entry and the
torn-down entry (stop flag set and worker joined), if one existed. -/
def teardownSubscription (reg : SubRegistry) (h : Nat) : SubRegistry × Option SubEntry :=
  match reg.entries.lookup h with
  | none => (reg, none)
  | some s => ({ entries := reg.entries.filter (fun e => !(e.fst == h)) },
               some { s with stopFlag := true, joined := true })

/-- Modelled from the spec: `subscribe` (spec §4.5, step 1), missing
from `src/` — if a subscription already exists for the handle, tear it
down completely before registering the new one, so at most one worker
polls the channel; returns the new registry and the list of
subscriptions torn down (fully joined) before the call returned. -/
def subscribeChannel (reg : SubRegistry) (h : Nat) (cb : Nat) : SubRegistry × List SubEntry :=
  let td := teardownSubscription reg h
  ({ entries := (h, { cb := cb, stopFlag := false, joined := false }) :: td.fst.entries },
   match td.snd with
   | none => []
   | some s => [s])

/-- Modelled from the spec: delivery of a polled batch (spec §4.5, step
4), missing from `src/` — a batch arriving on a channel is handed to the
callback of that channel's current subscription, if any. -/
def deliverBatch (reg : SubRegistry) (h : Nat) (frames : List Nat) : Option (Nat × List Nat) :=
  (reg.entries.lookup h).map (fun s => (s.cb, frames))

/-- Ghost observation for the IProperty lifecycle: how many IProperty
handles the wrapper currently holds (the stored pointer is the only
place one is ever kept). -/
def heldCount (st : DeviceState) : Nat :=
  if st.pProperty.isSome then 1 else 0

/-- Claim C3: `close()` on an already-closed Device (including one never
opened) is a no-op returning `false`, raises no error, and does not
invoke the driver close; a first `close()` on an open Device invokes the
driver close exactly once and sets the DeviceHandle to the invalid
sentinel. -/
theorem closeDevice_idempotent (st : DeviceState) (s : Nat) :
    (st.deviceHandle = INVALID_DEVICE_HANDLE →
      (CloseDevice st s).1.retVal = false ∧
      (CloseDevice st s).1.closeCalls = 0 ∧
      (CloseDevice st s).2.deviceHandle = INVALID_DEVICE_HANDLE) ∧
    (st.deviceHandle ≠ INVALID_DEVICE_HANDLE →
      (CloseDevice st s).1.closeCalls = 1 ∧
      (CloseDevice st s).2.deviceHandle = INVALID_DEVICE_HANDLE) := by
  constructor
  · intro h
    simp [CloseDevice, h]
  · intro h
    simp [CloseDevice, h]

/-- Claim C3 witness: a never-opened device (handle 0) and an open device
(handle 7), both holding no property, evaluated concretely. -/
theorem closeDevice_idempotent_witness :
    ((CloseDevice ⟨0, none⟩ 1).1.retVal = false ∧
      (CloseDevice ⟨0, none⟩ 1).1.closeCalls = 0 ∧
      (CloseDevice ⟨0, none⟩ 1).2.deviceHandle = INVALID_DEVICE_HANDLE) ∧
    ((CloseDevice ⟨7, none⟩ 1).1.closeCalls = 1 ∧
      (CloseDevice ⟨7, none⟩ 1).2.deviceHandle = INVALID_DEVICE_HANDLE) :=
  ⟨(closeDevice_idempotent ⟨0, none⟩ 1).1 (by decide),
   (closeDevice_idempotent ⟨7, none⟩ 1).2 (by decide)⟩

/-- Claim C2: in `initChannel` config marshalling, an omitted acceptance
mask is passed to the driver as all-bits-set `0xFFFFFFFF`; an omitted
`timing1` (Classic variant) is passed as the documented non-zero default
`0x1C`; and every other omitted numeric field (`accCode`, `filter`,
`timing0`, `mode`, `reserved` for Classic; `accCode`, `abitTiming`,
`dbitTiming`, `brp`, `filter`, `mode`, `pad`, `reserved` for FD) is
passed as zero. -/
theorem initChannel_config_defaults (cfg : ChannelConfigIn) :
    (cfg.accMask = none → (buildClassicConfig cfg).acc_mask = 0xFFFFFFFF) ∧
    (cfg.timing1 = none → (buildClassicConfig cfg).timing1 = 0x1C ∧
      (buildClassicConfig cfg).timing1 ≠ 0) ∧
    (cfg.accCode = none → (buildClassicConfig cfg).acc_code = 0) ∧
    (cfg.filter = none → (buildClassicConfig cfg).filter = 0) ∧
    (cfg.timing0 = none → (buildClassicConfig cfg).timing0 = 0) ∧
    (cfg.mode = none → (buildClassicConfig cfg).mode = 0) ∧
    (cfg.reserved = none → (buildClassicConfig cfg).reserved = 0) ∧
    (cfg.accMask = none → (buildFDConfig cfg).acc_mask = 0xFFFFFFFF) ∧
    (cfg.accCode = none → (buildFDConfig cfg).acc_code = 0) ∧
    (cfg.abitTiming = none → (buildFDConfig cfg).abit_timing = 0) ∧
    (cfg.dbitTiming = none → (buildFDConfig cfg).dbit_timing = 0) ∧
    (cfg.brp = none → (buildFDConfig cfg).brp = 0) ∧
    (cfg.filter = none → (buildFDConfig cfg).filter = 0) ∧
    (cfg.mode = none → (buildFDConfig cfg).mode = 0) ∧
    (cfg.pad = none → (buildFDConfig cfg).pad = 0) ∧
    (cfg.reserved = none → (buildFDConfig cfg).reserved = 0) ∧
    (cfg.canType % UINT_MOD = TYPE_CAN →
      (buildInitConfig cfg).payload = .can (buildClassicConfig cfg)) := by
  refine ⟨?_, ?_, ?_, ?_, ?_, ?_, ?_, ?_, ?_, ?_, ?_, ?_, ?_, ?_, ?_, ?_, ?_⟩ <;>
    intro h <;>
    simp_all [buildClassicConfig, buildFDConfig, buildInitConfig,
      uintField, byteField]

/-- Claim C2 witness: a Classic config and an FD config with every
optional field omitted, evaluated concretely. -/
theorem initChannel_config_defaults_witness :
    ((buildClassicConfig { canType := TYPE_CAN }).acc_mask = 0xFFFFFFFF ∧
      (buildClassicConfig { canType := TYPE_CAN }).timing1 = 0x1C ∧
      (buildClassicConfig { canType := TYPE_CAN }).timing1 ≠ 0 ∧
      (buildClassicConfig { canType := TYPE_CAN }).acc_code = 0) ∧
    ((buildFDConfig { canType := TYPE_CANFD }).acc_mask = 0xFFFFFFFF ∧
      (buildFDConfig { canType := TYPE_CANFD }).abit_timing = 0 ∧
      (buildFDConfig { canType := TYPE_CANFD }).pad = 0) := by
  have h1 := initChannel_config_defaults { canType := TYPE_CAN }
  have h2 := initChannel_config_defaults { canType := TYPE_CANFD }
  exact ⟨⟨h1.1 rfl, (h1.2.1 rfl).1, (h1.2.1 rfl).2,
          h1.2.2.1 rfl⟩,
         ⟨h2.2.2.2.2.2.2.2.1 rfl, h2.2.2.2.2.2.2.2.2.2.1 rfl,
          h2.2.2.2.2.2.2.2.2.2.2.2.2.2.2.1 rfl⟩⟩

/-- Claim C4 counterexample: with the device open and the driver's
`ZCAN_InitCAN` returning the sentinel invalid channel handle,
`initCanChannel` does not fail with an `InvalidHandle` error: it returns
the sentinel itself to the caller as an ordinary BigInt result. -/
theorem initChannel_sentinel_counterexample :
    InitCanChannel ⟨7, none⟩ 0 { canType := TYPE_CAN }
        (fun _ _ => INVALID_CHANNEL_HANDLE)
      = (.result INVALID_CHANNEL_HANDLE, 1) ∧
    NapiRet.result INVALID_CHANNEL_HANDLE ≠ (.notOpenError : NapiRet Nat) := by
  constructor
  · simp [InitCanChannel, INVALID_DEVICE_HANDLE]
  · simp

/-- Claim C4 amended: on an open device `initCanChannel` returns
whatever channel handle the driver produced, unchanged and unchecked —
including the sentinel invalid handle.  No `InvalidHandle` error is
raised; the caller must compare the returned handle against the exported
`INVALID_CHANNEL_HANDLE` constant itself. -/
theorem initChannel_returns_driver_handle (st : DeviceState) (idx : Nat)
    (cfg : ChannelConfigIn) (drv : Nat → ZCAN_CHANNEL_INIT_CONFIG → Nat)
    (hOpen : st.deviceHandle ≠ INVALID_DEVICE_HANDLE) :
    InitCanChannel st idx cfg drv
      = (.result (drv (idx % UINT_MOD) (buildInitConfig cfg)), 1) := by
  simp [InitCanChannel, hOpen]

/-- Claim C4 witness: an open device with a driver returning handle 0,
evaluated concretely. -/
theorem initChannel_returns_driver_handle_witness :
    InitCanChannel ⟨7, none⟩ 0 { canType := TYPE_CAN } (fun _ _ => 0)
      = (.result 0, 1) :=
  initChannel_returns_driver_handle ⟨7, none⟩ 0 { canType := TYPE_CAN }
    (fun _ _ => 0) (by decide)

/-- Index lookup in a mapped range: element `j` of
`(List.range n).map f` is `f j` below `n` and the default above it. -/
theorem getD_rangeMap (f : Nat → Nat) (n j : Nat) :
    ((List.range n).map f).getD j 0 = if j < n then f j else 0 := by
  rw [List.getD_eq_getElem?_getD, List.getElem?_map]
  by_cases h : j < n
  · rw [List.getElem?_range h]
    simp [h]
  · rw [List.getElem?_eq_none (by simpa using Nat.le_of_not_lt h)]
    simp [h]

/-- A ranged index-copy of a sufficiently long list is its prefix. -/
theorem rangeMap_getD_eq_take (l : List Nat) (n : Nat) (h : n ≤ l.length) :
    (List.range n).map (fun j => l.getD j 0) = l.take n := by
  induction n with
  | zero => simp
  | succ k ih =>
    rw [List.range_succ, List.map_append, ih (Nat.le_of_succ_le h)]
    have hk : k < l.length := h
    rw [List.take_succ, List.getElem?_eq_getElem hk]
    simp [List.getD_eq_getElem?_getD, List.getElem?_eq_getElem hk]

/-- Claim C1 counterexample: `startCanChannel` on a Device in the Closed
state (device handle equal to the invalid sentinel) does not fail with a
NotOpen error and does not leave the driver untouched: it invokes
`ZCAN_StartCAN` exactly once (second component 1, not 0) and returns an
ordinary Boolean result. -/
theorem closed_start_counterexample :
    StartCanChannel ⟨INVALID_DEVICE_HANDLE, none⟩ 5 STATUS_OK = (true, 1) ∧
    (StartCanChannel ⟨INVALID_DEVICE_HANDLE, none⟩ 5 STATUS_OK).2 ≠ 0 := by
  decide

/-- Claim C1 amended: on a Closed Device, only the operations that read
the stored DeviceHandle — `getDeviceInfo`, `initCanChannel`, `setValue`,
`getValue`, `getIProperty` — fail with the NotOpen error without
invoking the driver; the channel-handle-parameter operations —
`startCanChannel`, `resetCanChannel`, `clearBuffer`, `transmit`,
`transmitFD`, `receive`, `receiveFD`, `readChannelErrInfo`,
`readChannelStatus`, `getReceiveNum` — perform no device-state check at
all: they invoke the driver exactly once and return its result even
when the Device is Closed. -/
theorem closed_device_behavior (st : DeviceState)
    (hC : st.deviceHandle = INVALID_DEVICE_HANDLE)
    (ch idx s : Nat) (cfg : ChannelConfigIn) (path v : String)
    (drvInit : Nat → ZCAN_CHANNEL_INIT_CONFIG → Nat)
    (di : ZCAN_DEVICE_INFO) (gv : Option String) (pp : Option Nat)
    (e : ZCAN_CHANNEL_ERR_INFO) (cs : ZCAN_CHANNEL_STATUS)
    (t : Option Nat) (drvNum : Nat → Nat)
    (cnt : Nat) (wt : Option Int)
    (txs : List TxFrameIn) (drvTx : List ZCAN_Transmit_Data → Nat)
    (txfds : List TxFDFrameIn) (drvTxFD : List ZCAN_TransmitFD_Data → Nat)
    (drvRx : Nat → Int → List ZCAN_Receive_Data)
    (drvRxFD : Nat → Int → List ZCAN_ReceiveFD_Data) :
    GetDeviceInfo st s di = (.notOpenError, 0) ∧
    InitCanChannel st idx cfg drvInit = (.notOpenError, 0) ∧
    SetValue st path v s = (.notOpenError, 0) ∧
    GetValue st path gv = (.notOpenError, 0) ∧
    GetIProperty st pp = (.notOpenError, st, []) ∧
    StartCanChannel st ch s = (decide (s = STATUS_OK), 1) ∧
    ResetCanChannel st ch s = (decide (s = STATUS_OK), 1) ∧
    ClearBuffer st ch s = (decide (s = STATUS_OK), 1) ∧
    (ReadChannelErrInfo st ch s e).2 = 1 ∧
    (ReadChannelStatus st ch s cs).2 = 1 ∧
    GetReceiveNum st ch t drvNum = (drvNum (byteField t TYPE_CAN), 1) ∧
    Transmit st ch txs drvTx =
      { sent := drvTx (txs.map marshalTxFrame), batches := [txs.map marshalTxFrame] } ∧
    TransmitFD st ch txfds drvTxFD =
      { sent := drvTxFD (txfds.map marshalTxFrameFD), batches := [txfds.map marshalTxFrameFD] } ∧
    Receive st ch cnt wt drvRx
      = ((drvRx (cnt % UINT_MOD) (wt.getD (-1))).map convertRxFrame, 1) ∧
    ReceiveFD st ch cnt wt drvRxFD
      = ((drvRxFD (cnt % UINT_MOD) (wt.getD (-1))).map convertRxFrameFD, 1) := by
  by_cases hs : s = STATUS_OK <;>
    simp [GetDeviceInfo, InitCanChannel, SetValue, GetValue, GetIProperty,
      StartCanChannel, ResetCanChannel, ClearBuffer, ReadChannelErrInfo,
      ReadChannelStatus, GetReceiveNum, Transmit, TransmitFD, Receive,
      ReceiveFD, hC, hs]

/-- Claim C1 witness: the amended behavior evaluated on a concrete
closed device, for a checking operation and a non-checking one. -/
theorem closed_device_behavior_witness :
    GetDeviceInfo ⟨0, none⟩ 1 ⟨0, 0, 0, 0, 0, 0, "", ""⟩ = (.notOpenError, 0) ∧
    StartCanChannel ⟨0, none⟩ 5 1 = (true, 1) ∧
    GetReceiveNum ⟨0, none⟩ 5 none (fun _ => 4) = (4, 1) := by
  have h := closed_device_behavior ⟨0, none⟩ rfl 5 0 1 { canType := 0 } "p" "v"
    (fun _ _ => 3) ⟨0, 0, 0, 0, 0, 0, "", ""⟩ none none ⟨0, [0, 0, 0], 0⟩
    ⟨0, 0, 0, 0, 0, 0, 0, 0⟩ none (fun _ => 4) 1 none [] (fun _ => 0) []
    (fun _ => 0) (fun _ _ => []) (fun _ _ => [])
  exact ⟨h.1, by simpa using h.2.2.2.2.2.1, by simpa using h.2.2.2.2.2.2.2.2.2.2.1⟩

/-- Claim C5 (spec-modelled; the subscription subsystem is not among the
source files): after `subscribe(h, cb1)` followed by `subscribe(h, cb2)`
returns, a batch delivered on `h` reaches only `cb2`, and the
subscription serving `cb1` was torn down — stop flag set and worker
thread joined — before the second `subscribe` returned. -/
theorem subscribe_replaces_subscribe (reg : SubRegistry) (h cb1 cb2 : Nat)
    (frames : List Nat) :
    deliverBatch (subscribeChannel (subscribeChannel reg h cb1).fst h cb2).fst h frames
      = some (cb2, frames) ∧
    (subscribeChannel (subscribeChannel reg h cb1).fst h cb2).snd
      = [{ cb := cb1, stopFlag := true, joined := true }] := by
  simp [subscribeChannel, teardownSubscription, deliverBatch, List.lookup]

/-- Claim C6: each frame returned by a synchronous receive has a data
array of length exactly its own DLC (classic) or len (FD), holding
precisely the first DLC/len bytes of the driver buffer — trailing
buffer bytes never appear; and `receive`/`receiveFD` return exactly the
converted driver frames. -/
theorem receive_truncation
    (r : ZCAN_Receive_Data) (hr : r.frame.can_dlc ≤ r.frame.data.length)
    (rfd : ZCAN_ReceiveFD_Data) (hrfd : rfd.frame.len ≤ rfd.frame.data.length)
    (st : DeviceState) (ch cnt : Nat) (wt : Option Int)
    (drv : Nat → Int → List ZCAN_Receive_Data)
    (drvFD : Nat → Int → List ZCAN_ReceiveFD_Data) :
    (convertRxFrame r).data.length = r.frame.can_dlc ∧
    (convertRxFrame r).data = r.frame.data.take r.frame.can_dlc ∧
    (convertRxFrameFD rfd).data.length = rfd.frame.len ∧
    (convertRxFrameFD rfd).data = rfd.frame.data.take rfd.frame.len ∧
    (Receive st ch cnt wt drv).1
      = (drv (cnt % UINT_MOD) (wt.getD (-1))).map convertRxFrame ∧
    (ReceiveFD st ch cnt wt drvFD).1
      = (drvFD (cnt % UINT_MOD) (wt.getD (-1))).map convertRxFrameFD := by
  refine ⟨?_, ?_, ?_, ?_, ?_, ?_⟩
  · simp [convertRxFrame]
  · simpa [convertRxFrame] using rangeMap_getD_eq_take r.frame.data r.frame.can_dlc hr
  · simp [convertRxFrameFD]
  · simpa [convertRxFrameFD] using rangeMap_getD_eq_take rfd.frame.data rfd.frame.len hrfd
  · simp [Receive]
  · simp [ReceiveFD]

/-- Claim C6 witness: a classic frame with DLC 5 in an 8-byte buffer
yields exactly its first 5 bytes; an FD frame with len 64 yields all 64
bytes. -/
theorem receive_truncation_witness :
    (convertRxFrame ⟨⟨3, 5, [1, 2, 3, 4, 5, 6, 7, 8]⟩, 0⟩).data.length = 5 ∧
    (convertRxFrame ⟨⟨3, 5, [1, 2, 3, 4, 5, 6, 7, 8]⟩, 0⟩).data = [1, 2, 3, 4, 5] ∧
    (convertRxFrameFD ⟨⟨3, 64, 0, List.replicate 64 9⟩, 0⟩).data.length = 64 := by
  have h := receive_truncation ⟨⟨3, 5, [1, 2, 3, 4, 5, 6, 7, 8]⟩, 0⟩ (by decide)
    ⟨⟨3, 64, 0, List.replicate 64 9⟩, 0⟩ (by simp) ⟨0, none⟩ 1 1 none
    (fun _ _ => []) (fun _ _ => [])
  exact ⟨h.1, by simpa using h.2.1, h.2.2.1⟩

/-- Element access into the marshalled transmit buffer. -/
theorem fillData_getD (maxLen j : Nat) (d : List Nat) :
    (fillData maxLen d).getD j 0
      = if j < maxLen then d.getD j 0 % UINT_MOD % BYTE_MOD else 0 := by
  simp only [fillData]
  exact getD_rangeMap (fun j => d.getD j 0 % UINT_MOD % BYTE_MOD) maxLen j

/-- Claim C7 counterexample: a transmit frame declaring DLC 0 but
supplying one data byte puts that byte — value 7, not zero — at buffer
index 0, an index at or beyond the declared DLC; the marshalling copies
up to 8 supplied bytes regardless of the declared DLC. -/
theorem transmit_padding_counterexample :
    (marshalTxFrame { id := 1, dlc := 0, data := some [7] }).frame.can_dlc = 0 ∧
    (marshalTxFrame { id := 1, dlc := 0, data := some [7] }).frame.data.getD 0 0 = 7 := by
  decide

/-- Claim C7 amended: the data buffer passed to the driver is the
caller's data truncated to the format's maximum length (8 bytes
classic, 64 bytes FD); every byte at an index at or beyond the length
of the caller's supplied data array is zero, while indices below it —
including indices at or beyond the declared DLC/len — carry the
caller's bytes (reduced to `BYTE`). -/
theorem transmit_buffer_zero_fill (f : TxFrameIn) (g : TxFDFrameIn) (j : Nat) :
    (marshalTxFrame f).frame.data.length = CAN_MAX_DLEN ∧
    ((f.data.getD []).length ≤ j → (marshalTxFrame f).frame.data.getD j 0 = 0) ∧
    (j < (f.data.getD []).length → j < CAN_MAX_DLEN →
      (marshalTxFrame f).frame.data.getD j 0
        = (f.data.getD []).getD j 0 % UINT_MOD % BYTE_MOD) ∧
    (marshalTxFrameFD g).frame.data.length = CANFD_MAX_DLEN ∧
    ((g.data.getD []).length ≤ j → (marshalTxFrameFD g).frame.data.getD j 0 = 0) ∧
    (j < (g.data.getD []).length → j < CANFD_MAX_DLEN →
      (marshalTxFrameFD g).frame.data.getD j 0
        = (g.data.getD []).getD j 0 % UINT_MOD % BYTE_MOD) := by
  refine ⟨?_, ?_, ?_, ?_, ?_, ?_⟩
  · simp [marshalTxFrame, fillData]
  · intro hj
    rw [marshalTxFrame]
    simp only [fillData_getD]
    rw [List.getD_eq_default _ _ hj]
    simp
  · intro hj hm
    rw [marshalTxFrame]
    simp only [fillData_getD]
    simp [hm]
  · simp [marshalTxFrameFD, fillData]
  · intro hj
    rw [marshalTxFrameFD]
    simp only [fillData_getD]
    rw [List.getD_eq_default _ _ hj]
    simp
  · intro hj hm
    rw [marshalTxFrameFD]
    simp only [fillData_getD]
    simp [hm]

/-- Claim C7 witness: concrete classic and FD frames — two supplied
bytes land at indices 0 and 1, index 2 and beyond is zero; the buffers
are 8 and 64 bytes long. -/
theorem transmit_buffer_zero_fill_witness :
    (marshalTxFrame { id := 1, dlc := 2, data := some [17, 34] }).frame.data.length = 8 ∧
    (marshalTxFrame { id := 1, dlc := 2, data := some [17, 34] }).frame.data.getD 2 0 = 0 ∧
    (marshalTxFrame { id := 1, dlc := 2, data := some [17, 34] }).frame.data.getD 1 0 = 34 ∧
    (marshalTxFrameFD { id := 1, len := 2, data := some [17, 34] }).frame.data.length = 64 ∧
    (marshalTxFrameFD { id := 1, len := 2, data := some [17, 34] }).frame.data.getD 5 0 = 0 := by
  have h2 := transmit_buffer_zero_fill { id := 1, dlc := 2, data := some [17, 34] }
    { id := 1, len := 2, data := some [17, 34] } 2
  have h1 := transmit_buffer_zero_fill { id := 1, dlc := 2, data := some [17, 34] }
    { id := 1, len := 2, data := some [17, 34] } 1
  have h5 := transmit_buffer_zero_fill { id := 1, dlc := 2, data := some [17, 34] }
    { id := 1, len := 2, data := some [17, 34] } 5
  exact ⟨h2.1, h2.2.1 (by decide), by simpa using h1.2.2.1 (by decide) (by decide),
         h2.2.2.2.1, h5.2.2.2.2.1 (by decide)⟩

/-- Claim C8: a transmit call with a batch of n frames issues exactly
one driver transmit invocation carrying all n marshalled frames, and
returns the driver's accepted count unchanged; the return type is a
plain count with no error channel, so a count below n is an ordinary
result. -/
theorem transmit_single_batch (st : DeviceState) (ch : Nat)
    (txs : List TxFrameIn) (drv : List ZCAN_Transmit_Data → Nat)
    (txfds : List TxFDFrameIn) (drvFD : List ZCAN_TransmitFD_Data → Nat) :
    (Transmit st ch txs drv).batches = [txs.map marshalTxFrame] ∧
    (Transmit st ch txs drv).batches.map List.length = [txs.length] ∧
    (Transmit st ch txs drv).sent = drv (txs.map marshalTxFrame) ∧
    (TransmitFD st ch txfds drvFD).batches = [txfds.map marshalTxFrameFD] ∧
    (TransmitFD st ch txfds drvFD).batches.map List.length = [txfds.length] ∧
    (TransmitFD st ch txfds drvFD).sent = drvFD (txfds.map marshalTxFrameFD) := by
  simp [Transmit, TransmitFD]

/-- Claim C9 counterexample: `getReceiveNum` does not yield an
empty/absent result distinguishable from a zero-pending success — its
driver boundary (`ZCAN_GetReceiveNum`) carries no status, and the
wrapper returns the driver's count as a plain number: a call whose
driver reply is 0 produces exactly the successful zero-pending result
`(0, 1)`.  By contrast `readChannelErrInfo` does distinguish: `null` on
a non-OK status versus a non-null object on the zero snapshot. -/
theorem getReceiveNum_counterexample :
    GetReceiveNum ⟨7, none⟩ 1 none (fun _ => 0) = (0, 1) ∧
    (ReadChannelErrInfo ⟨7, none⟩ 1 0 ⟨0, [0, 0, 0], 0⟩).1 = none ∧
    (ReadChannelErrInfo ⟨7, none⟩ 1 STATUS_OK ⟨0, [0, 0, 0], 0⟩).1
      = some ⟨0, [0, 0, 0], 0⟩ := by
  decide

/-- Claim C9 amended: `readChannelErrInfo` and `readChannelStatus`
return `null` exactly when the driver status is non-OK, and the
marshalled snapshot object otherwise — so their failure result is
distinguishable from a successful zero snapshot; `getReceiveNum`
forwards the driver's count unchanged as a plain number with no
absent/failure representation, so a failed query is not distinguishable
from zero pending frames. -/
theorem status_readback_failure (st : DeviceState) (ch s : Nat)
    (e : ZCAN_CHANNEL_ERR_INFO) (cs : ZCAN_CHANNEL_STATUS)
    (t : Option Nat) (drv : Nat → Nat) :
    (s ≠ STATUS_OK → (ReadChannelErrInfo st ch s e).1 = none) ∧
    (s = STATUS_OK → (ReadChannelErrInfo st ch s e).1
      = some { errorCode := e.error_code
               passiveErrData := (List.range 3).map (fun i => e.passive_ErrData.getD i 0)
               arLostErrData := e.arLost_ErrData }) ∧
    (s ≠ STATUS_OK → (ReadChannelStatus st ch s cs).1 = none) ∧
    (s = STATUS_OK → (ReadChannelStatus st ch s cs).1
      = some { errInterrupt := cs.errInterrupt, regMode := cs.regMode
               regStatus := cs.regStatus, regALCapture := cs.regALCapture
               regECCapture := cs.regECCapture, regEWLimit := cs.regEWLimit
               regRECounter := cs.regRECounter, regTECounter := cs.regTECounter }) ∧
    GetReceiveNum st ch t drv = (drv (byteField t TYPE_CAN), 1) := by
  refine ⟨?_, ?_, ?_, ?_, ?_⟩ <;>
    first
      | (intro hs; simp [ReadChannelErrInfo, ReadChannelStatus, hs])
      | simp [GetReceiveNum]

/-- Claim C9 witness: concrete failing (status 0) and succeeding
(status 1) readbacks, and a concrete count forward. -/
theorem status_readback_failure_witness :
    (ReadChannelErrInfo ⟨7, none⟩ 1 0 ⟨2, [0, 0, 0], 3⟩).1 = none ∧
    (ReadChannelStatus ⟨7, none⟩ 1 STATUS_OK ⟨1, 2, 3, 4, 5, 6, 7, 8⟩).1
      = some ⟨1, 2, 3, 4, 5, 6, 7, 8⟩ ∧
    GetReceiveNum ⟨7, none⟩ 1 none (fun _ => 6) = (6, 1) := by
  have hf := status_readback_failure ⟨7, none⟩ 1 0 ⟨2, [0, 0, 0], 3⟩
    ⟨1, 2, 3, 4, 5, 6, 7, 8⟩ none (fun _ => 6)
  have hs := status_readback_failure ⟨7, none⟩ 1 STATUS_OK ⟨2, [0, 0, 0], 3⟩
    ⟨1, 2, 3, 4, 5, 6, 7, 8⟩ none (fun _ => 6)
  exact ⟨hf.1 (by decide), by simpa using hs.2.2.2.1 rfl, hf.2.2.2.2⟩

/-- Claim C10: at most one IProperty handle is live at any point:
`getIProperty` on an open device releases the held IProperty (if any)
before acquiring the new one and stores the driver's pointer;
`releaseIProperty` with none held returns `false` without calling the
driver; `closeDevice` and destruction release the held IProperty and
null the stored pointer; the wrapper never holds more than one. -/
theorem iproperty_single_live (st : DeviceState) (pp : Option Nat) (s : Nat) :
    (st.deviceHandle ≠ INVALID_DEVICE_HANDLE → st.pProperty.isSome →
      (GetIProperty st pp).2.2 = [PropCall.release, PropCall.acquire]) ∧
    (st.deviceHandle ≠ INVALID_DEVICE_HANDLE → st.pProperty = none →
      (GetIProperty st pp).2.2 = [PropCall.acquire]) ∧
    (st.deviceHandle ≠ INVALID_DEVICE_HANDLE →
      (GetIProperty st pp).2.1.pProperty = pp) ∧
    (st.pProperty = none → ReleaseIProperty st s = (false, st, [])) ∧
    (st.pProperty.isSome →
      (ReleaseIProperty st s).2.1.pProperty = none ∧
      (ReleaseIProperty st s).2.2 = [PropCall.release]) ∧
    ((CloseDevice st s).1.releaseCalls = heldCount st ∧
      (CloseDevice st s).2.pProperty = none) ∧
    ((destructor st).2.1 = (if st.pProperty.isSome then [PropCall.release] else []) ∧
      (destructor st).1.pProperty = none) ∧
    heldCount (GetIProperty st pp).2.1 ≤ 1 ∧
    heldCount (ReleaseIProperty st s).2.1 ≤ 1 ∧
    heldCount (CloseDevice st s).2 ≤ 1 := by
  rcases hp : st.pProperty with _ | p <;>
    by_cases hd : st.deviceHandle = INVALID_DEVICE_HANDLE <;>
    simp [GetIProperty, ReleaseIProperty, CloseDevice, destructor, heldCount,
      hp, hd] <;>
    rcases pp with _ | q <;> simp

/-- Claim C10 witness: an open device holding a property re-acquires
with a release first; a fresh device releases nothing. -/
theorem iproperty_single_live_witness :
    (GetIProperty ⟨7, some 3⟩ (some 9)).2.2 = [PropCall.release, PropCall.acquire] ∧
    ReleaseIProperty ⟨7, none⟩ 1 = (false, ⟨7, none⟩, []) ∧
    (CloseDevice ⟨7, some 3⟩ 1).2.pProperty = none := by
  have h1 := iproperty_single_live ⟨7, some 3⟩ (some 9) 1
  have h2 := iproperty_single_live ⟨7, none⟩ (some 9) 1
  exact ⟨h1.1 (by decide) (by decide), h2.2.2.2.1 rfl, h1.2.2.2.2.2.1.2⟩

end ZlgCan
